import Mathlib

/-!
Verification development for the AbangColek fruit-slicer repository.

The repository ships two near-duplicate iterations of the game component
`GeminiFruitSlicer.tsx` in one file.  We call them:

* variant 1 ("onResults"): collision test inlined in the `onResults` frame
  callback, using infinite-line distance with a bounding-box filter, an
  unclamped lives decrement, and a `Math.max(0, score + pts)` score update;
* variant 2 ("checkCollisions"): a dedicated `checkCollisions` routine using
  the parametric-t-clamped segment distance, a clamped lives decrement, and
  a plain `score += points` update that only runs for non-bomb targets.

Coordinates, radii and probabilities are embedded as rationals.  The source
compares `Math.sqrt d < r`; since both sides are nonnegative for the radii in
`FRUIT_CONFIG`, we embed the comparison square-free as `d < r ^ 2`, which
keeps every definition executable.  `Math.atan2`-encoded slice angles are
stored as the underlying direction vector (an injective encoding of the same
information for a nonzero segment).
-/

/-- Fruit categories of `FRUIT_CONFIG` in `GeminiFruitSlicer.tsx`. -/
inductive FruitType where
  | guava
  | mango
  | pineapple
  | sweet_mango
  | bomb
deriving DecidableEq, Repr

/-- Point values of `FRUIT_CONFIG` (10, 20, 50, 150, -100). -/
def fruitPoints : FruitType → ℤ
  | .guava => 10
  | .mango => 20
  | .pineapple => 50
  | .sweet_mango => 150
  | .bomb => -100

/-- Collision radii of `FRUIT_CONFIG` (42, 48, 60, 52, 38). -/
def fruitRadius : FruitType → ℚ
  | .guava => 42
  | .mango => 48
  | .pineapple => 60
  | .sweet_mango => 52
  | .bomb => 38

/-- A 2D point of the blade trail (canvas coordinates). -/
structure Point where
  x : ℚ
  y : ℚ
deriving DecidableEq, Repr

/-- A target entity, from the `Fruit` records pushed by `spawnFruit`.
The source stores `sliceAngle` as `Math.atan2(dy, dx)`; we store the
direction pair `(dx, dy)` itself. -/
structure Fruit where
  type : FruitType
  x : ℚ
  y : ℚ
  vx : ℚ
  vy : ℚ
  radius : ℚ
  isSliced : Bool
  sliceAngle : Option (ℚ × ℚ)
deriving DecidableEq, Repr

/-- Squared length of the trail segment `p1 -> p2`. -/
def segLenSq (p1 p2 : Point) : ℚ :=
  (p2.x - p1.x) ^ 2 + (p2.y - p1.y) ^ 2

/-- Clamp of the segment parameter to `[0, 1]`, from
`Math.max(0, Math.min(1, t))` in `checkCollisions`. -/
def clampT (t : ℚ) : ℚ := max 0 (min 1 t)

/-- Squared distance from `(fx, fy)` to the point of parameter `t` on the
segment `prev -> tip`. -/
def distSqAt (prev tip : Point) (fx fy t : ℚ) : ℚ :=
  (fx - (prev.x + t * (tip.x - prev.x))) ^ 2 +
    (fy - (prev.y + t * (tip.y - prev.y))) ^ 2

/-- The raw segment parameter `t` of `checkCollisions`:
`((fx-prev.x)*(tip.x-prev.x) + (fy-prev.y)*(tip.y-prev.y)) / (speed*speed)`. -/
def rawT (prev tip : Point) (fx fy : ℚ) : ℚ :=
  ((fx - prev.x) * (tip.x - prev.x) + (fy - prev.y) * (tip.y - prev.y)) /
    segLenSq prev tip

/-- Squared distance from `(fx, fy)` to the clamped closest point computed by
`checkCollisions` (`closestX`/`closestY`, then `dist`). -/
def segDistSq (prev tip : Point) (fx fy : ℚ) : ℚ :=
  distSqAt prev tip fx fy (clampT (rawT prev tip fx fy))

/-- Hit test of variant 2 (`checkCollisions`, `dist < fruit.radius`), in the
square-free encoding.  A zero-length segment yields `t = 0/0 = NaN` in the
source and the `NaN < radius` comparison is false, hence the explicit guard. -/
def checkCollisionsHit (prev tip : Point) (f : Fruit) : Bool :=
  if segLenSq prev tip = 0 then false
  else decide (segDistSq prev tip f.x f.y < f.radius ^ 2)

/-- Hit test of variant 1 (`onResults` lines around 429-433): infinite-line
distance below `radius * 1.25` plus a radius-inflated bounding-box test, with
the `lineLenSq < 8` early return.  The comparison
`|dy*fx - dx*fy + p2.x*p1.y - p2.y*p1.x| / sqrt lineLenSq < 1.25 * r` is
embedded square-free. -/
def onResultsHit (p1 p2 : Point) (f : Fruit) : Bool :=
  let dx := p2.x - p1.x
  let dy := p2.y - p1.y
  let lineLenSq := dx * dx + dy * dy
  if lineLenSq < 8 then false
  else
    decide ((dy * f.x - dx * f.y + p2.x * p1.y - p2.y * p1.x) ^ 2 <
        (5 / 4 * f.radius) ^ 2 * lineLenSq) &&
      decide (f.x > min p1.x p2.x - f.radius) &&
      decide (f.x < max p1.x p2.x + f.radius) &&
      decide (f.y > min p1.y p2.y - f.radius) &&
      decide (f.y < max p1.y p2.y + f.radius)

/-- Slice mutation of variant 1 (`onResults` hit block): sets the sliced flag
and the slice angle (stored as the segment direction); variant 1 does not
touch the velocity of the fruit. -/
def v1SliceFruit (p1 p2 : Point) (f : Fruit) : Fruit :=
  { f with isSliced := true, sliceAngle := some (p2.x - p1.x, p2.y - p1.y) }

/-- Slice mutation of variant 2 (`checkCollisions` hit block): sets the sliced
flag, the slice angle, and overwrites the velocity with the impulse
`(Math.cos(sliceAngle) * 2, Math.sin(sliceAngle) * 2)`.  With
`sliceAngle = atan2(dy, dx)` this is `(2*dx/len, 2*dy/len)` for
`len = sqrt(dx^2 + dy^2)`; since that square root is irrational in general,
`len` is a parameter, constrained by `len ^ 2 = segLenSq prev tip` and
`0 < len` in the theorems. -/
def v2SliceFruit (prev tip : Point) (len : ℚ) (f : Fruit) : Fruit :=
  { f with isSliced := true,
           sliceAngle := some (tip.x - prev.x, tip.y - prev.y),
           vx := 2 * (tip.x - prev.x) / len,
           vy := 2 * (tip.y - prev.y) / len }

/-- Per-fruit collision step of variant 1 (`fruits.forEach` body, guarded by
`if (!f.isSliced)`); the boolean reports whether a hit event fired. -/
def v1FruitStep (p1 p2 : Point) (f : Fruit) : Fruit × Bool :=
  if !f.isSliced && onResultsHit p1 p2 f then (v1SliceFruit p1 p2 f, true)
  else (f, false)

/-- Per-fruit collision step of variant 2 (`checkCollisions` body, guarded by
`if (fruit.isSliced) return`); the boolean reports whether a hit event fired. -/
def v2FruitStep (prev tip : Point) (len : ℚ) (f : Fruit) : Fruit × Bool :=
  if f.isSliced then (f, false)
  else if checkCollisionsHit prev tip f then (v2SliceFruit prev tip len f, true)
  else (f, false)

/-- Running one fruit through a sequence of trail segments under variant 1,
counting the hit events it produces. -/
def v1RunSegments : List (Point × Point) → Fruit → Fruit × ℕ
  | [], f => (f, 0)
  | s :: rest, f =>
    let step := v1FruitStep s.1 s.2 f
    let r := v1RunSegments rest step.1
    (r.1, (if step.2 then 1 else 0) + r.2)

/-- Running one fruit through a sequence of trail segments under variant 2,
counting the hit events it produces. -/
def v2RunSegments : List (Point × Point × ℚ) → Fruit → Fruit × ℕ
  | [], f => (f, 0)
  | s :: rest, f =>
    let step := v2FruitStep s.1 s.2.1 s.2.2 f
    let r := v2RunSegments rest step.1
    (r.1, (if step.2 then 1 else 0) + r.2)

/-- Scalar game state mutated by the collision resolution, from the refs
`scoreRef`, `livesRef`, `levelRef`, `gameActive`. -/
structure Stats where
  score : ℤ
  lives : ℤ
  level : ℤ
  gameActive : Bool
deriving DecidableEq, Repr

/-- MAX_LIVES = 3 in `GeminiFruitSlicer.tsx`. -/
def MAX_LIVES : ℤ := 3

/-- Stats mutation of a variant-1 hit (`onResults` hit block): a bomb
decrements lives without a clamp and ends the game at lives <= 0; every type
then updates the score through `Math.max(0, score + pts)` and recomputes the
level as `Math.floor(score / 1500) + 1`, applied only when larger. -/
def v1HitStats (ty : FruitType) (s : Stats) : Stats :=
  let s1 :=
    if ty = FruitType.bomb then
      { s with lives := s.lives - 1,
               gameActive := if s.lives - 1 ≤ 0 then false else s.gameActive }
    else s
  let score1 := max 0 (s1.score + fruitPoints ty)
  let nl := Int.fdiv score1 1500 + 1
  { s1 with score := score1, level := if nl > s1.level then nl else s1.level }

/-- Stats mutation of a variant-2 hit (`checkCollisions` hit block): a bomb
only decrements lives, clamped at 0 by `Math.max(0, lives - 1)`; a non-bomb
adds its (positive) points without a clamp and recomputes the level as
`1 + Math.floor(score / 300)`, applied only when larger. -/
def v2HitStats (ty : FruitType) (s : Stats) : Stats :=
  if ty = FruitType.bomb then
    { s with lives := max 0 (s.lives - 1) }
  else
    let score1 := s.score + fruitPoints ty
    let nl := 1 + Int.fdiv score1 300
    { s with score := score1, level := if nl > s.level then nl else s.level }

/-- Collision phase of a variant-1 frame: the `fruits.forEach` loop of
`onResults` over the current trail segment, threading the stats through the
hits in order.  The loop runs to completion even if a hit ends the game. -/
def v1Frame (p1 p2 : Point) : List Fruit → Stats → List Fruit × Stats
  | [], s => ([], s)
  | f :: fs, s =>
    let step := v1FruitStep p1 p2 f
    let s1 := if step.2 then v1HitStats f.type s else s
    let rest := v1Frame p1 p2 fs s1
    (step.1 :: rest.1, rest.2)

/-- Collision phase of a variant-2 frame: the `fruits.forEach` loop of
`checkCollisions`, threading the stats through the hits in order. -/
def v2Frame (prev tip : Point) (len : ℚ) : List Fruit → Stats → List Fruit × Stats
  | [], s => ([], s)
  | f :: fs, s =>
    let step := v2FruitStep prev tip len f
    let s1 := if step.2 then v2HitStats f.type s else s
    let rest := v2Frame prev tip len fs s1
    (step.1 :: rest.1, rest.2)

/-- Advisory orchestrator state: `pending` is `captureRequestRef.current`,
`inFlight` is the live `isAiThinking` React state, and `inFlightSnap` is the
value of `isAiThinking` captured by the `onResults` closure when the
`[gameState]`-dependency effect installed it: `setIsAiThinking` updates the
live state, but the closure keeps reading its mount-time snapshot until the
effect re-runs on a phase change, so the variant-1 capture guard compares
against `inFlightSnap`, not `inFlight`.  `flights` is a ghost counter of
outstanding transport requests (not in the source; it states the in-flight
count), `dispatched` counts calls handed to the transport. -/
structure Orch where
  pending : Bool
  inFlight : Bool
  inFlightSnap : Bool
  flights : ℕ
  dispatched : ℕ
deriving DecidableEq, Repr

/-- Orchestrator state at the start of a PLAYING phase: the closure snapshot
is the then-current value false of `isAiThinking`. -/
def orchInit : Orch :=
  { pending := false, inFlight := false, inFlightSnap := false,
    flights := 0, dispatched := 0 }

/-- Events seen by the orchestrator: `trigger` sets the capture-request bit
(`captureRequestRef.current = true`), `capture` is the end-of-frame capture
block, `complete` is the advisory call resolving (its `finally` resets the
in-flight flag). -/
inductive OrchEvent where
  | trigger
  | capture
  | complete
deriving DecidableEq, Repr

/-- Variant-1 orchestrator step: the capture block is guarded by
`if (captureRequestRef.current && !isAiThinking)`, where `isAiThinking` is
the stale value captured by the closure (`inFlightSnap`), not the live flag;
dispatching sets the live flag and clears the pending bit.  `complete` is
the advisory call resolving (its `finally` resets the live flag). -/
def v1OrchStep (o : Orch) : OrchEvent → Orch
  | .trigger => { o with pending := true }
  | .capture =>
    if o.pending && !o.inFlightSnap then
      { o with pending := false, inFlight := true,
               flights := o.flights + 1, dispatched := o.dispatched + 1 }
    else o
  | .complete => { o with inFlight := false, flights := o.flights - 1 }

/-- Variant-2 orchestrator step: the capture block is guarded only by
`if (captureRequestRef.current)`; there is no in-flight check of any kind
before `performAiAnalysis` dispatches. -/
def v2OrchStep (o : Orch) : OrchEvent → Orch
  | .trigger => { o with pending := true }
  | .capture =>
    if o.pending then
      { o with pending := false, inFlight := true,
               flights := o.flights + 1, dispatched := o.dispatched + 1 }
    else o
  | .complete => { o with inFlight := false, flights := o.flights - 1 }

/-- Result of parsing the advisory transport body (`JSON.parse` plus field
extraction in `getSenseiAdvice`); `malformed` is a `JSON.parse` throw. -/
inductive ParsedHint where
  | malformed
  | ok (message : Option String) (priorityFruit : Option FruitType)

/-- Outcome of the advisory transport call (`ai.models.generateContent`). -/
inductive TransportOutcome where
  | failure (err : String)
  | response (body : String)

/-- The structured hint returned to the game loop. -/
structure Hint where
  message : String
  priorityFruit : Option FruitType
deriving DecidableEq, Repr

/-- The `getSenseiAdvice` of `src/unnamed/part_001`, with the external
transport and the JSON parser as parameters.  Every branch returns a hint;
no branch throws into the caller.  The three literal strings are the
missing-key, transport-failure and malformed-response fallbacks. -/
def getSenseiAdvice (apiKey : Option String) (outcome : TransportOutcome)
    (parse : String → ParsedHint) : Hint :=
  match apiKey with
  | none => { message := "Sensei sedang istirahat (API Key Hilang).", priorityFruit := none }
  | some _ =>
    match outcome with
    | .failure _ =>
      { message := "Sensei lagi ngopi, lanjut potong dulu!", priorityFruit := none }
    | .response body =>
      match parse body with
      | .malformed =>
        { message := "Fokus, Bang! Potongannya kurang tajam.", priorityFruit := none }
      | .ok msg pf => { message := msg.getD "Terus potong!", priorityFruit := pf }

/-- The advisory-facing UI state touched by `performAiAnalysis`. -/
structure AdvisoryState where
  senseiHint : String
  priorityFruit : Option FruitType
  isAiThinking : Bool
deriving DecidableEq, Repr

/-- Settlement of `performAiAnalysis` (variant 1): the hint is applied unless
the component was destroyed while the call was outstanding; the `finally`
clause resets the in-flight flag on every path. -/
def performAiAnalysisApply (destroyed : Bool) (st : AdvisoryState) (h : Hint) :
    AdvisoryState :=
  if destroyed then { st with isAiThinking := false }
  else { senseiHint := h.message, priorityFruit := h.priorityFruit, isAiThinking := false }

/-- MAX_PARTICLES = 120 in `GeminiFruitSlicer.tsx`. -/
def MAX_PARTICLES : ℕ := 120

/-- A transient effect particle; `wait` is the pre-emission hold delay. -/
structure Particle where
  x : ℚ
  y : ℚ
  vx : ℚ
  vy : ℚ
  life : ℚ
  color : String
  wait : ℚ
deriving DecidableEq, Repr

/-- One insertion of `createExplosion`:
`if (particles.length >= MAX_PARTICLES) particles.shift(); particles.push(p)`.
The list head is the oldest live particle. -/
def pushParticle (ps : List Particle) (p : Particle) : List Particle :=
  (if MAX_PARTICLES ≤ ps.length then ps.tail else ps) ++ [p]

/-- The insertion loop of `createExplosion`, inserting the freshly built
batch in order. -/
def createExplosionInsert (ps : List Particle) (batch : List Particle) : List Particle :=
  batch.foldl pushParticle ps

/-- Number of iterations of `for (let i = 0; i < count; i++)` for a
nonnegative real bound: the least natural number not below `count`. -/
def loopIterations (c : ℚ) : ℕ := (Int.ceil c).toNat

/-- The batch bound `const count = (isBomb ? 50 : 30) + Math.random() * 15`,
with `r` the `Math.random()` sample in `[0, 1)`. -/
def explosionCount (isBomb : Bool) (r : ℚ) : ℚ :=
  (if isBomb then 50 else 30) + r * 15

/-- Number of particles a `createExplosion` call creates. -/
def explosionBatchSize (isBomb : Bool) (r : ℚ) : ℕ :=
  loopIterations (explosionCount isBomb r)

/-- The per-particle hold `const wait = isBomb ? 0 : Math.random() * 0.15`. -/
def particleWait (isBomb : Bool) (r : ℚ) : ℚ :=
  if isBomb then 0 else r * (15 / 100)

/-- INITIAL_SPAWN_INTERVAL = 1100 in `GeminiFruitSlicer.tsx`. -/
def INITIAL_SPAWN_INTERVAL : ℤ := 1100

/-- The spawn interval
`Math.max(300, INITIAL_SPAWN_INTERVAL - levelRef.current * 60)` used by both
variants of `onResults`. -/
def spawnRate (level : ℤ) : ℤ :=
  max 300 (INITIAL_SPAWN_INTERVAL - level * 60)

/-- The bomb probability of `spawnFruit`: zero before level 3, then
`Math.min(0.35, 0.05 + (currentLevel - 3) * 0.015)`. -/
def bombThreshold (level : ℤ) : ℚ :=
  if 3 ≤ level then min (35 / 100) (5 / 100 + ((level : ℚ) - 3) * (15 / 1000))
  else 0

/-- Concrete bomb target at (47, 28): inside the radius-inflated bounding box
of the segment (0,0)->(10,0) and within 1.25 * radius of the infinite line,
but with clamped-segment distance sqrt 2153 > 38. -/
def cexFruitC1 : Fruit :=
  { type := .bomb, x := 47, y := 28, vx := 0, vy := 0, radius := 38,
    isSliced := false, sliceAngle := none }

/-- Concrete bomb target at (100, 0): collinear with the direction of the
segment (0,0)->(10,0) but far beyond its radius-inflated bounding box. -/
def cexFruitFar : Fruit :=
  { type := .bomb, x := 100, y := 0, vx := 0, vy := 0, radius := 38,
    isSliced := false, sliceAngle := none }

/-- Concrete bomb target sitting on the segment (0,0)->(10,0). -/
def cexBombA : Fruit :=
  { type := .bomb, x := 5, y := 0, vx := 0, vy := 0, radius := 38,
    isSliced := false, sliceAngle := none }

/-- A second bomb target on the same segment. -/
def cexBombB : Fruit :=
  { type := .bomb, x := 6, y := 0, vx := 0, vy := 0, radius := 38,
    isSliced := false, sliceAngle := none }

/-- Concrete collectible target on the segment (0,0)->(10,0) with a nonzero
incoming velocity. -/
def cexFruitC9 : Fruit :=
  { type := .guava, x := 5, y := 0, vx := 3, vy := -4, radius := 42,
    isSliced := false, sliceAngle := none }

/-- Stats of a session that has one life left. -/
def cexStatsC3 : Stats :=
  { score := 0, lives := 1, level := 1, gameActive := true }

/-- A concrete effect particle. -/
def cexParticle : Particle :=
  { x := 0, y := 0, vx := 1, vy := 1, life := 1, color := "#FFFFFF", wait := 0 }

-- Minimality of the clamped projection: helper lemmas for claim C1.

theorem distSqAt_eq (prev tip : Point) (fx fy t : ℚ) :
    distSqAt prev tip fx fy t =
      segLenSq prev tip * t ^ 2 -
        2 * ((fx - prev.x) * (tip.x - prev.x) + (fy - prev.y) * (tip.y - prev.y)) * t +
        ((fx - prev.x) ^ 2 + (fy - prev.y) ^ 2) := by
  simp only [distSqAt, segLenSq]
  ring

theorem quadMin_clamped (L D t : ℚ) (hL : 0 < L) (ht0 : 0 ≤ t) (ht1 : t ≤ 1) :
    L * clampT (D / L) ^ 2 - 2 * D * clampT (D / L) ≤ L * t ^ 2 - 2 * D * t := by
  rcases le_or_lt (D / L) 0 with hc | hc
  · have hclamp : clampT (D / L) = 0 := by
      unfold clampT
      rw [min_eq_right (le_trans hc zero_le_one)]
      exact max_eq_left hc
    have hDle : D ≤ 0 := by
      rcases div_nonpos_iff.mp hc with ⟨h1, h2⟩ | ⟨h1, h2⟩
      · linarith
      · exact h1
    rw [hclamp]
    nlinarith [mul_nonneg (mul_nonneg ht0 ht0) hL.le,
      mul_nonneg (neg_nonneg.mpr hDle) ht0]
  · rcases le_or_lt 1 (D / L) with hc1 | hc1
    · have hclamp : clampT (D / L) = 1 := by
        unfold clampT
        rw [min_eq_left hc1]
        exact max_eq_right zero_le_one
      have hDge : L ≤ D := by
        have := (le_div_iff₀ hL).mp hc1
        linarith
      rw [hclamp]
      have key : 0 ≤ (1 - t) * (2 * D - L * (t + 1)) := by
        apply mul_nonneg (by linarith)
        nlinarith
      nlinarith [key]
    · have hclamp : clampT (D / L) = D / L := by
        unfold clampT
        rw [min_eq_right hc1.le]
        exact max_eq_right hc.le
      rw [hclamp]
      have h0 : 0 ≤ (L * t - D) ^ 2 / L := by positivity
      have hexp : L * t ^ 2 - 2 * D * t - (L * (D / L) ^ 2 - 2 * D * (D / L)) =
          (L * t - D) ^ 2 / L := by
        field_simp
        ring
      linarith [hexp ▸ h0]

theorem segDistSq_le_distSqAt (prev tip : Point) (fx fy t : ℚ)
    (hL : segLenSq prev tip ≠ 0) (ht0 : 0 ≤ t) (ht1 : t ≤ 1) :
    segDistSq prev tip fx fy ≤ distSqAt prev tip fx fy t := by
  have hLnn : (0 : ℚ) ≤ segLenSq prev tip := by
    unfold segLenSq
    positivity
  have hLpos : 0 < segLenSq prev tip := by
    rcases lt_or_eq_of_le hLnn with h | h
    · exact h
    · exact absurd h.symm hL
  have h := quadMin_clamped (segLenSq prev tip)
    ((fx - prev.x) * (tip.x - prev.x) + (fy - prev.y) * (tip.y - prev.y)) t hLpos ht0 ht1
  have hraw : rawT prev tip fx fy =
      ((fx - prev.x) * (tip.x - prev.x) + (fy - prev.y) * (tip.y - prev.y)) /
        segLenSq prev tip := rfl
  unfold segDistSq
  rw [hraw, distSqAt_eq, distSqAt_eq]
  linarith [h]

theorem segDistSq_mem (prev tip : Point) (fx fy : ℚ) :
    ∃ t : ℚ, 0 ≤ t ∧ t ≤ 1 ∧ segDistSq prev tip fx fy = distSqAt prev tip fx fy t := by
  refine ⟨clampT (rawT prev tip fx fy), ?_, ?_, rfl⟩
  · exact le_max_left 0 _
  · exact max_le zero_le_one (min_le_left 1 _)

-- Generic clamp bounds used by the collision characterisation.

theorem clampT_nonneg (t : ℚ) : 0 ≤ clampT t := le_max_left 0 _

theorem clampT_le_one (t : ℚ) : clampT t ≤ 1 := max_le zero_le_one (min_le_left 1 _)

theorem lerp_le_max (a b t : ℚ) (ht0 : 0 ≤ t) (ht1 : t ≤ 1) :
    a + t * (b - a) ≤ max a b := by
  rcases le_total a b with h | h
  · rw [max_eq_right h]
    nlinarith
  · rw [max_eq_left h]
    nlinarith

theorem min_le_lerp (a b t : ℚ) (ht0 : 0 ≤ t) (ht1 : t ≤ 1) :
    min a b ≤ a + t * (b - a) := by
  rcases le_total a b with h | h
  · rw [min_eq_left h]
    nlinarith
  · rw [min_eq_right h]
    nlinarith

theorem checkCollisionsHit_iff (prev tip : Point) (f : Fruit)
    (hL : segLenSq prev tip ≠ 0) :
    checkCollisionsHit prev tip f = true ↔
      ∃ t : ℚ, 0 ≤ t ∧ t ≤ 1 ∧ distSqAt prev tip f.x f.y t < f.radius ^ 2 := by
  unfold checkCollisionsHit
  rw [if_neg hL]
  simp only [decide_eq_true_eq]
  constructor
  · intro h
    exact ⟨clampT (rawT prev tip f.x f.y), clampT_nonneg _, clampT_le_one _, h⟩
  · rintro ⟨t, ht0, ht1, ht⟩
    exact lt_of_le_of_lt (segDistSq_le_distSqAt prev tip f.x f.y t hL ht0 ht1) ht

theorem checkCollisionsHit_far (prev tip : Point) (f : Fruit)
    (hr : 0 ≤ f.radius)
    (hfar : max prev.x tip.x + f.radius ≤ f.x ∨ f.x ≤ min prev.x tip.x - f.radius ∨
      max prev.y tip.y + f.radius ≤ f.y ∨ f.y ≤ min prev.y tip.y - f.radius) :
    checkCollisionsHit prev tip f = false := by
  unfold checkCollisionsHit
  split
  · rfl
  · have hct0 := clampT_nonneg (rawT prev tip f.x f.y)
    have hct1 := clampT_le_one (rawT prev tip f.x f.y)
    have hcx_le : prev.x + clampT (rawT prev tip f.x f.y) * (tip.x - prev.x) ≤
        max prev.x tip.x := lerp_le_max _ _ _ hct0 hct1
    have hcx_ge : min prev.x tip.x ≤
        prev.x + clampT (rawT prev tip f.x f.y) * (tip.x - prev.x) :=
      min_le_lerp _ _ _ hct0 hct1
    have hcy_le : prev.y + clampT (rawT prev tip f.x f.y) * (tip.y - prev.y) ≤
        max prev.y tip.y := lerp_le_max _ _ _ hct0 hct1
    have hcy_ge : min prev.y tip.y ≤
        prev.y + clampT (rawT prev tip f.x f.y) * (tip.y - prev.y) :=
      min_le_lerp _ _ _ hct0 hct1
    have h3 : f.radius ^ 2 ≤ segDistSq prev tip f.x f.y := by
      unfold segDistSq distSqAt
      have hsx := sq_nonneg
        (f.x - (prev.x + clampT (rawT prev tip f.x f.y) * (tip.x - prev.x)))
      have hsy := sq_nonneg
        (f.y - (prev.y + clampT (rawT prev tip f.x f.y) * (tip.y - prev.y)))
      rcases hfar with h | h | h | h
      · have h1 : f.radius ≤
            f.x - (prev.x + clampT (rawT prev tip f.x f.y) * (tip.x - prev.x)) := by
          linarith
        have h2 := pow_le_pow_left₀ hr h1 2
        linarith
      · have h1 : f.radius ≤
            (prev.x + clampT (rawT prev tip f.x f.y) * (tip.x - prev.x)) - f.x := by
          linarith
        have h2 := pow_le_pow_left₀ hr h1 2
        have he : ((prev.x + clampT (rawT prev tip f.x f.y) * (tip.x - prev.x)) - f.x) ^ 2 =
            (f.x - (prev.x + clampT (rawT prev tip f.x f.y) * (tip.x - prev.x))) ^ 2 := by
          ring
        rw [he] at h2
        linarith
      · have h1 : f.radius ≤
            f.y - (prev.y + clampT (rawT prev tip f.x f.y) * (tip.y - prev.y)) := by
          linarith
        have h2 := pow_le_pow_left₀ hr h1 2
        linarith
      · have h1 : f.radius ≤
            (prev.y + clampT (rawT prev tip f.x f.y) * (tip.y - prev.y)) - f.y := by
          linarith
        have h2 := pow_le_pow_left₀ hr h1 2
        have he : ((prev.y + clampT (rawT prev tip f.x f.y) * (tip.y - prev.y)) - f.y) ^ 2 =
            (f.y - (prev.y + clampT (rawT prev tip f.x f.y) * (tip.y - prev.y))) ^ 2 := by
          ring
        rw [he] at h2
        linarith
    simp [not_lt.mpr h3]

theorem onResultsHit_far (p1 p2 : Point) (f : Fruit)
    (hfar : max p1.x p2.x + f.radius ≤ f.x ∨ f.x ≤ min p1.x p2.x - f.radius ∨
      max p1.y p2.y + f.radius ≤ f.y ∨ f.y ≤ min p1.y p2.y - f.radius) :
    onResultsHit p1 p2 f = false := by
  rcases hfar with h | h | h | h <;> simp [onResultsHit, not_lt.mpr h]

/-- C1 (amended): over a nondegenerate trail segment, the `checkCollisions`
variant registers a hit exactly when some point of the segment (parametric t
in [0,1]) is strictly within the target's radius, i.e. exactly when the
clamped-segment distance is below the radius; and in both variants a target
beyond the radius-inflated bounding box of the segment on any of its four
sides (in particular one far outside it and collinear with the segment's
direction, whichever way the segment points) never registers a hit. -/
theorem C1_segment_clamped_hit (prev tip : Point) (f : Fruit)
    (hL : segLenSq prev tip ≠ 0) (hr : 0 ≤ f.radius) :
    (checkCollisionsHit prev tip f = true ↔
      ∃ t : ℚ, 0 ≤ t ∧ t ≤ 1 ∧ distSqAt prev tip f.x f.y t < f.radius ^ 2) ∧
    ((max prev.x tip.x + f.radius ≤ f.x ∨ f.x ≤ min prev.x tip.x - f.radius ∨
        max prev.y tip.y + f.radius ≤ f.y ∨ f.y ≤ min prev.y tip.y - f.radius) →
      checkCollisionsHit prev tip f = false ∧ onResultsHit prev tip f = false) := by
  refine ⟨checkCollisionsHit_iff prev tip f hL, fun hfar => ⟨?_, ?_⟩⟩
  · exact checkCollisionsHit_far prev tip f hr hfar
  · exact onResultsHit_far prev tip f hfar

/-- C1 counterexample: the `onResults` variant registers a hit on the bomb at
(47, 28) over the segment (0,0)->(10,0) although the distance from the bomb
to the closest point of the segment is not below its radius (2153 >= 38^2),
so "a hit is registered exactly when the clamped-segment distance is less
than the radius" fails for that variant. -/
theorem C1_counterexample :
    onResultsHit ⟨0, 0⟩ ⟨10, 0⟩ cexFruitC1 = true ∧
      ¬ (segDistSq ⟨0, 0⟩ ⟨10, 0⟩ cexFruitC1.x cexFruitC1.y < cexFruitC1.radius ^ 2) := by
  constructor
  · norm_num [onResultsHit, cexFruitC1]
  · norm_num [segDistSq, distSqAt, rawT, clampT, segLenSq, cexFruitC1]

/-- Witness for C1 at the segment (0,0)->(10,0) and the collinear far bomb
at (100, 0): the far hypothesis is discharged concretely and both hit tests
come out false. -/
theorem C1_segment_clamped_hit_witness :
    segLenSq ⟨0, 0⟩ ⟨10, 0⟩ ≠ 0 ∧ (0 : ℚ) ≤ cexFruitFar.radius ∧
      max (⟨0, 0⟩ : Point).x (⟨10, 0⟩ : Point).x + cexFruitFar.radius ≤ cexFruitFar.x ∧
      (checkCollisionsHit ⟨0, 0⟩ ⟨10, 0⟩ cexFruitFar = false ∧
        onResultsHit ⟨0, 0⟩ ⟨10, 0⟩ cexFruitFar = false) :=
  ⟨by norm_num [segLenSq], by norm_num [cexFruitFar], by norm_num [cexFruitFar],
    (C1_segment_clamped_hit ⟨0, 0⟩ ⟨10, 0⟩ cexFruitFar (by norm_num [segLenSq])
        (by norm_num [cexFruitFar])).2
      (Or.inl (by norm_num [cexFruitFar]))⟩

-- Idempotence of hit resolution on already-sliced targets (claim C2).

theorem v1FruitStep_sliced (p1 p2 : Point) (f : Fruit) (h : f.isSliced = true) :
    v1FruitStep p1 p2 f = (f, false) := by
  simp [v1FruitStep, h]

theorem v2FruitStep_sliced (prev tip : Point) (len : ℚ) (f : Fruit)
    (h : f.isSliced = true) : v2FruitStep prev tip len f = (f, false) := by
  simp [v2FruitStep, h]

theorem v1RunSegments_sliced (segs : List (Point × Point)) (f : Fruit)
    (h : f.isSliced = true) : v1RunSegments segs f = (f, 0) := by
  induction segs with
  | nil => rfl
  | cons s rest ih =>
    simp [v1RunSegments, v1FruitStep_sliced s.1 s.2 f h, ih]

theorem v2RunSegments_sliced (segs : List (Point × Point × ℚ)) (f : Fruit)
    (h : f.isSliced = true) : v2RunSegments segs f = (f, 0) := by
  induction segs with
  | nil => rfl
  | cons s rest ih =>
    simp [v2RunSegments, v2FruitStep_sliced s.1 s.2.1 s.2.2 f h, ih]

/-- C2: in both variants, once a target's sliced flag is true the collision
step leaves it untouched and fires no hit event, the flag is never reset to
false, and running the collision test over any further sequence of trail
segments produces zero hit events and no mutation at all. -/
theorem C2_sliced_is_write_once :
    (∀ (p1 p2 : Point) (f : Fruit), f.isSliced = true → v1FruitStep p1 p2 f = (f, false)) ∧
    (∀ (prev tip : Point) (len : ℚ) (f : Fruit), f.isSliced = true →
      v2FruitStep prev tip len f = (f, false)) ∧
    (∀ (p1 p2 : Point) (f : Fruit), f.isSliced = true →
      ((v1FruitStep p1 p2 f).1).isSliced = true) ∧
    (∀ (prev tip : Point) (len : ℚ) (f : Fruit), f.isSliced = true →
      ((v2FruitStep prev tip len f).1).isSliced = true) ∧
    (∀ (segs : List (Point × Point)) (f : Fruit), f.isSliced = true →
      v1RunSegments segs f = (f, 0)) ∧
    (∀ (segs : List (Point × Point × ℚ)) (f : Fruit), f.isSliced = true →
      v2RunSegments segs f = (f, 0)) := by
  refine ⟨v1FruitStep_sliced, v2FruitStep_sliced, ?_, ?_,
    v1RunSegments_sliced, v2RunSegments_sliced⟩
  · intro p1 p2 f h
    rw [v1FruitStep_sliced p1 p2 f h]
    exact h
  · intro prev tip len f h
    rw [v2FruitStep_sliced prev tip len f h]
    exact h

/-- Witness for C2: a sliced guava is untouched by two further segments. -/
theorem C2_sliced_is_write_once_witness :
    (cexFruitC9.isSliced = false) ∧
      ((v1SliceFruit ⟨0, 0⟩ ⟨10, 0⟩ cexFruitC9).isSliced = true ∧
        v1RunSegments [(⟨0, 0⟩, ⟨10, 0⟩), (⟨0, 10⟩, ⟨10, 10⟩)]
            (v1SliceFruit ⟨0, 0⟩ ⟨10, 0⟩ cexFruitC9) =
          (v1SliceFruit ⟨0, 0⟩ ⟨10, 0⟩ cexFruitC9, 0)) :=
  ⟨rfl, rfl,
    (C2_sliced_is_write_once.2.2.2.2.1) [(⟨0, 0⟩, ⟨10, 0⟩), (⟨0, 10⟩, ⟨10, 10⟩)]
      (v1SliceFruit ⟨0, 0⟩ ⟨10, 0⟩ cexFruitC9) rfl⟩

-- Stats lemmas for the lives/level/score invariants (claims C3 and C10).

theorem v2HitStats_lives_lb (ty : FruitType) (s : Stats) (h : 0 ≤ s.lives) :
    0 ≤ (v2HitStats ty s).lives := by
  unfold v2HitStats
  split
  · exact le_max_left 0 _
  · exact h

theorem v2HitStats_lives_ub (ty : FruitType) (s : Stats) (h : s.lives ≤ MAX_LIVES) :
    (v2HitStats ty s).lives ≤ MAX_LIVES := by
  unfold v2HitStats MAX_LIVES
  split
  · simp only []
    unfold MAX_LIVES at h
    omega
  · exact h

theorem v2HitStats_lives_le (ty : FruitType) (s : Stats) (h : 0 ≤ s.lives) :
    (v2HitStats ty s).lives ≤ s.lives := by
  unfold v2HitStats
  split
  · simp only []
    omega
  · exact le_rfl

theorem v2HitStats_level_mono (ty : FruitType) (s : Stats) :
    s.level ≤ (v2HitStats ty s).level := by
  unfold v2HitStats
  split
  · exact le_rfl
  · simp only []
    split
    · next hgt => exact le_of_lt hgt
    · exact le_rfl

theorem v1HitStats_level_mono (ty : FruitType) (s : Stats) :
    s.level ≤ (v1HitStats ty s).level := by
  unfold v1HitStats
  split
  · simp only []
    split
    · next hgt => exact le_of_lt hgt
    · exact le_rfl
  · simp only []
    split
    · next hgt => exact le_of_lt hgt
    · exact le_rfl

theorem v1HitStats_lives_le (ty : FruitType) (s : Stats) :
    (v1HitStats ty s).lives ≤ s.lives := by
  unfold v1HitStats
  split
  · simp only []
    omega
  · exact le_rfl

theorem v1HitStats_score_eq (ty : FruitType) (s : Stats) :
    (v1HitStats ty s).score = max 0 (s.score + fruitPoints ty) := by
  unfold v1HitStats
  split <;> rfl

theorem v1HitStats_score_nonneg (ty : FruitType) (s : Stats) :
    0 ≤ (v1HitStats ty s).score := by
  rw [v1HitStats_score_eq]
  exact le_max_left 0 _

theorem v2Frame_stats (prev tip : Point) (len : ℚ) (fs : List Fruit) :
    ∀ s : Stats,
      (0 ≤ s.lives → 0 ≤ ((v2Frame prev tip len fs s).2).lives) ∧
      (s.lives ≤ MAX_LIVES → ((v2Frame prev tip len fs s).2).lives ≤ MAX_LIVES) ∧
      s.level ≤ ((v2Frame prev tip len fs s).2).level := by
  induction fs with
  | nil =>
    intro s
    exact ⟨fun h => h, fun h => h, le_rfl⟩
  | cons f rest ih =>
    intro s
    by_cases hhit : (v2FruitStep prev tip len f).2 = true
    · have h1 := ih (v2HitStats f.type s)
      refine ⟨fun h => ?_, fun h => ?_, ?_⟩
      · have := h1.1 (v2HitStats_lives_lb f.type s h)
        simpa [v2Frame, hhit] using this
      · have := h1.2.1 (v2HitStats_lives_ub f.type s h)
        simpa [v2Frame, hhit] using this
      · have := le_trans (v2HitStats_level_mono f.type s) h1.2.2
        simpa [v2Frame, hhit] using this
    · have h1 := ih s
      simp only [Bool.not_eq_true] at hhit
      refine ⟨fun h => ?_, fun h => ?_, ?_⟩
      · have := h1.1 h
        simpa [v2Frame, hhit] using this
      · have := h1.2.1 h
        simpa [v2Frame, hhit] using this
      · have := h1.2.2
        simpa [v2Frame, hhit] using this

theorem v2Frame_lives_le (prev tip : Point) (len : ℚ) (fs : List Fruit) :
    ∀ s : Stats, 0 ≤ s.lives → ((v2Frame prev tip len fs s).2).lives ≤ s.lives := by
  induction fs with
  | nil => exact fun s _ => le_rfl
  | cons f rest ih =>
    intro s h
    by_cases hhit : (v2FruitStep prev tip len f).2 = true
    · have h1 := ih (v2HitStats f.type s) (v2HitStats_lives_lb f.type s h)
      have h2 := v2HitStats_lives_le f.type s h
      have h3 := le_trans h1 h2
      simpa [v2Frame, hhit] using h3
    · simp only [Bool.not_eq_true] at hhit
      have h1 := ih s h
      simpa [v2Frame, hhit] using h1

theorem v1Frame_stats (p1 p2 : Point) (fs : List Fruit) :
    ∀ s : Stats,
      s.level ≤ ((v1Frame p1 p2 fs s).2).level ∧
      ((v1Frame p1 p2 fs s).2).lives ≤ s.lives ∧
      (0 ≤ s.score → 0 ≤ ((v1Frame p1 p2 fs s).2).score) := by
  induction fs with
  | nil =>
    intro s
    exact ⟨le_rfl, le_rfl, fun h => h⟩
  | cons f rest ih =>
    intro s
    by_cases hhit : (v1FruitStep p1 p2 f).2 = true
    · have h1 := ih (v1HitStats f.type s)
      refine ⟨?_, ?_, fun _ => ?_⟩
      · have := le_trans (v1HitStats_level_mono f.type s) h1.1
        simpa [v1Frame, hhit] using this
      · have := le_trans h1.2.1 (v1HitStats_lives_le f.type s)
        simpa [v1Frame, hhit] using this
      · have := h1.2.2 (v1HitStats_score_nonneg f.type s)
        simpa [v1Frame, hhit] using this
    · have h1 := ih s
      simp only [Bool.not_eq_true] at hhit
      refine ⟨?_, ?_, fun h => ?_⟩
      · have := h1.1
        simpa [v1Frame, hhit] using this
      · have := h1.2.1
        simpa [v1Frame, hhit] using this
      · have := h1.2.2 h
        simpa [v1Frame, hhit] using this

/-- C3 counterexample: in the `onResults` variant the lives decrement is not
clamped, and the frame loop keeps slicing after the game-over transition, so
a frame whose trail segment crosses two bombs while one life remains leaves
the session at lives = -1, outside [0, MAX_LIVES]. -/
theorem C3_counterexample :
    ((v1Frame ⟨0, 0⟩ ⟨10, 0⟩ [cexBombA, cexBombB] cexStatsC3).2).lives = -1 := by
  norm_num [v1Frame, v1FruitStep, v1SliceFruit, v1HitStats, onResultsHit,
    cexBombA, cexBombB, cexStatsC3, fruitPoints, Int.fdiv]

/-- C3 (amended): in the `checkCollisions` variant the hazard decrement is
clamped at 0, so a frame keeps lives within [0, MAX_LIVES]; in both variants
the level never decreases across a frame and lives never increase; the lower
bound 0 on lives does not hold in the `onResults` variant, whose decrement is
unclamped (see the counterexample). -/
theorem C3_lives_bounded_level_monotone (prev tip p1 p2 : Point) (len : ℚ)
    (fs : List Fruit) (s : Stats) (h0 : 0 ≤ s.lives) (h1 : s.lives ≤ MAX_LIVES) :
    (0 ≤ ((v2Frame prev tip len fs s).2).lives ∧
      ((v2Frame prev tip len fs s).2).lives ≤ MAX_LIVES) ∧
    s.level ≤ ((v2Frame prev tip len fs s).2).level ∧
    s.level ≤ ((v1Frame p1 p2 fs s).2).level ∧
    ((v1Frame p1 p2 fs s).2).lives ≤ s.lives ∧
    ((v2Frame prev tip len fs s).2).lives ≤ s.lives ∧
    (∀ ty : FruitType, ty ≠ FruitType.bomb →
      (v1HitStats ty s).lives = s.lives ∧ (v2HitStats ty s).lives = s.lives) := by
  obtain ⟨a, b, c⟩ := v2Frame_stats prev tip len fs s
  obtain ⟨d, e, _⟩ := v1Frame_stats p1 p2 fs s
  refine ⟨⟨a h0, b h1⟩, c, d, e, v2Frame_lives_le prev tip len fs s h0,
    fun ty hty => ⟨?_, ?_⟩⟩
  · simp [v1HitStats, hty]
  · simp [v2HitStats, hty]

/-- Witness for C3 on a one-life session frame over a single bomb. -/
theorem C3_lives_bounded_level_monotone_witness :
    (0 : ℤ) ≤ cexStatsC3.lives ∧ cexStatsC3.lives ≤ MAX_LIVES ∧
      (0 ≤ ((v2Frame ⟨0, 0⟩ ⟨10, 0⟩ 10 [cexBombA] cexStatsC3).2).lives ∧
        ((v2Frame ⟨0, 0⟩ ⟨10, 0⟩ 10 [cexBombA] cexStatsC3).2).lives ≤ MAX_LIVES) ∧
      cexStatsC3.level ≤ ((v2Frame ⟨0, 0⟩ ⟨10, 0⟩ 10 [cexBombA] cexStatsC3).2).level ∧
      cexStatsC3.level ≤ ((v1Frame ⟨0, 0⟩ ⟨10, 0⟩ [cexBombA] cexStatsC3).2).level ∧
      ((v1Frame ⟨0, 0⟩ ⟨10, 0⟩ [cexBombA] cexStatsC3).2).lives ≤ cexStatsC3.lives ∧
      ((v2Frame ⟨0, 0⟩ ⟨10, 0⟩ 10 [cexBombA] cexStatsC3).2).lives ≤ cexStatsC3.lives ∧
      (v1HitStats FruitType.guava cexStatsC3).lives = cexStatsC3.lives ∧
      (v2HitStats FruitType.guava cexStatsC3).lives = cexStatsC3.lives := by
  have h := C3_lives_bounded_level_monotone ⟨0, 0⟩ ⟨10, 0⟩ ⟨0, 0⟩ ⟨10, 0⟩ 10 [cexBombA]
    cexStatsC3 (by norm_num [cexStatsC3]) (by norm_num [cexStatsC3, MAX_LIVES])
  have hg := h.2.2.2.2.2 FruitType.guava (by decide)
  exact ⟨by norm_num [cexStatsC3], by norm_num [cexStatsC3, MAX_LIVES],
    h.1, h.2.1, h.2.2.1, h.2.2.2.1, h.2.2.2.2.1, hg.1, hg.2⟩

/-- C4: contrary to the claim (and to the intent visible in the variant-1
guard), both variants can put two advisory requests in flight.  The
variant-1 capture block compares against the `isAiThinking` snapshot frozen
in the `[gameState]` effect closure, which stays false for the whole PLAYING
phase, and the variant-2 capture block has no guard at all: from a fresh
phase, trigger, capture, trigger, capture with no completion in between
dispatches twice and leaves two requests outstanding in either variant. -/
theorem C4_second_request_in_flight :
    (([OrchEvent.trigger, OrchEvent.capture, OrchEvent.trigger,
        OrchEvent.capture]).foldl v1OrchStep orchInit).flights = 2 ∧
      (([OrchEvent.trigger, OrchEvent.capture, OrchEvent.trigger,
          OrchEvent.capture]).foldl v2OrchStep orchInit).flights = 2 ∧
      (([OrchEvent.trigger, OrchEvent.capture, OrchEvent.trigger,
          OrchEvent.capture]).foldl v1OrchStep orchInit).dispatched = 2 := by
  refine ⟨?_, ?_, ?_⟩ <;> decide

/-- C5: a transport failure and a malformed response each produce a result
whose message is a fixed static fallback string, independent of the failure
content (the advisory call is a total function: no branch raises into the
frame loop), and the settlement of `performAiAnalysis` resets the in-flight
flag on every path, destroyed or not. -/
theorem C5_advisory_fallback (apiKey err body : String)
    (parse : String → ParsedHint) (hmal : parse body = ParsedHint.malformed)
    (destroyed : Bool) (st : AdvisoryState) (h : Hint) :
    (getSenseiAdvice (some apiKey) (TransportOutcome.failure err) parse).message =
      "Sensei lagi ngopi, lanjut potong dulu!" ∧
    (getSenseiAdvice (some apiKey) (TransportOutcome.response body) parse).message =
      "Fokus, Bang! Potongannya kurang tajam." ∧
    (performAiAnalysisApply destroyed st h).isAiThinking = false := by
  refine ⟨rfl, ?_, ?_⟩
  · simp [getSenseiAdvice, hmal]
  · unfold performAiAnalysisApply
    split <;> rfl

/-- Witness for C5 with a parser that rejects every body. -/
theorem C5_advisory_fallback_witness :
    ((fun _ : String => ParsedHint.malformed) "x" = ParsedHint.malformed) ∧
      ((getSenseiAdvice (some "key") (TransportOutcome.failure "boom")
          (fun _ => ParsedHint.malformed)).message =
        "Sensei lagi ngopi, lanjut potong dulu!" ∧
       (getSenseiAdvice (some "key") (TransportOutcome.response "x")
          (fun _ => ParsedHint.malformed)).message =
        "Fokus, Bang! Potongannya kurang tajam." ∧
       (performAiAnalysisApply false
          { senseiHint := "", priorityFruit := none, isAiThinking := true }
          { message := "ok", priorityFruit := none }).isAiThinking = false) :=
  ⟨rfl, C5_advisory_fallback "key" "boom" "x" (fun _ => ParsedHint.malformed) rfl false
      { senseiHint := "", priorityFruit := none, isAiThinking := true }
      { message := "ok", priorityFruit := none }⟩

-- Particle-cap lemmas (claim C6).

theorem pushParticle_length_le (ps : List Particle) (p : Particle)
    (h : ps.length ≤ MAX_PARTICLES) :
    (pushParticle ps p).length ≤ MAX_PARTICLES := by
  unfold pushParticle MAX_PARTICLES at *
  split
  · next hge =>
    have ht : ps.tail.length = ps.length - 1 := List.length_tail ps
    simp only [List.length_append, List.length_singleton]
    omega
  · next hlt =>
    simp only [List.length_append, List.length_singleton]
    omega

theorem createExplosionInsert_length_le (batch : List Particle) :
    ∀ ps : List Particle, ps.length ≤ MAX_PARTICLES →
      (createExplosionInsert ps batch).length ≤ MAX_PARTICLES := by
  induction batch with
  | nil => exact fun ps h => h
  | cons p rest ih =>
    intro ps h
    simp only [createExplosionInsert, List.foldl_cons]
    exact ih (pushParticle ps p) (pushParticle_length_le ps p h)

/-- C6: the particle store never exceeds MAX_PARTICLES across a whole
`createExplosion` batch when it starts within the cap; an insertion arriving
at the cap evicts exactly the oldest live particle (the list head), keeping
the others in FIFO order; an insertion below the cap evicts nothing. -/
theorem C6_particle_cap_fifo (ps batch : List Particle) (p q : Particle)
    (rest : List Particle) :
    (ps.length ≤ MAX_PARTICLES →
      (createExplosionInsert ps batch).length ≤ MAX_PARTICLES) ∧
    ((q :: rest).length = MAX_PARTICLES → pushParticle (q :: rest) p = rest ++ [p]) ∧
    (ps.length < MAX_PARTICLES → pushParticle ps p = ps ++ [p]) := by
  refine ⟨fun h => createExplosionInsert_length_le batch ps h, fun h => ?_, fun h => ?_⟩
  · unfold pushParticle
    rw [if_pos (le_of_eq h.symm)]
    rfl
  · unfold pushParticle
    rw [if_neg (not_le.mpr h)]

/-- Witness for C6: an empty store takes a two-particle batch, and a store
holding exactly 120 particles evicts its head on the next insertion. -/
theorem C6_particle_cap_fifo_witness :
    ([] : List Particle).length ≤ MAX_PARTICLES ∧
      (cexParticle :: List.replicate 119 cexParticle).length = MAX_PARTICLES ∧
      ([] : List Particle).length < MAX_PARTICLES ∧
      ((createExplosionInsert [] [cexParticle, cexParticle]).length ≤ MAX_PARTICLES ∧
        pushParticle (cexParticle :: List.replicate 119 cexParticle) cexParticle =
          List.replicate 119 cexParticle ++ [cexParticle] ∧
        pushParticle [] cexParticle = [] ++ [cexParticle]) := by
  have h := C6_particle_cap_fifo [] [cexParticle, cexParticle] cexParticle cexParticle
    (List.replicate 119 cexParticle)
  refine ⟨by simp [MAX_PARTICLES], by simp [MAX_PARTICLES], by simp [MAX_PARTICLES],
    h.1 (by simp [MAX_PARTICLES]), h.2.1 (by simp [MAX_PARTICLES]),
    h.2.2 (by simp [MAX_PARTICLES])⟩

-- Batch-size lemmas (claim C7).

theorem loopIterations_bounds (c : ℚ) (lo hi : ℕ) (hlo : (lo : ℚ) ≤ c)
    (hhi : c ≤ (hi : ℚ)) : lo ≤ loopIterations c ∧ loopIterations c ≤ hi := by
  unfold loopIterations
  constructor
  · have h1 : (lo : ℤ) ≤ Int.ceil c := by
      have h2 := Int.le_ceil c
      have h3 : (lo : ℚ) ≤ (Int.ceil c : ℚ) := le_trans hlo h2
      exact_mod_cast h3
    omega
  · have h2 : Int.ceil c ≤ (hi : ℤ) := Int.ceil_le.mpr (by exact_mod_cast hhi)
    omega

/-- C7: for any Math.random() samples in [0, 1), a non-hazard hit creates
between 20 and 45 particles (in fact between 30 and 45), a hazard hit
between 40 and 65 (in fact between 50 and 65), every hazard batch is
strictly larger than every non-hazard batch, and hazard particles carry no
pre-emission hold delay. -/
theorem C7_explosion_batch_sizes (r r2 : ℚ) (h0 : 0 ≤ r) (h1 : r < 1)
    (h0b : 0 ≤ r2) (h1b : r2 < 1) :
    (20 ≤ explosionBatchSize false r2 ∧ explosionBatchSize false r2 ≤ 45) ∧
    (40 ≤ explosionBatchSize true r ∧ explosionBatchSize true r ≤ 65) ∧
    explosionBatchSize false r2 < explosionBatchSize true r ∧
    particleWait true r = 0 := by
  have hn := loopIterations_bounds (explosionCount false r2) 30 45
    (by simp only [explosionCount, if_neg]; push_cast; linarith)
    (by simp only [explosionCount, if_neg]; push_cast; linarith)
  have hb := loopIterations_bounds (explosionCount true r) 50 65
    (by simp only [explosionCount, if_pos]; push_cast; linarith)
    (by simp only [explosionCount, if_pos]; push_cast; linarith)
  unfold explosionBatchSize
  exact ⟨⟨by omega, hn.2⟩, ⟨by omega, hb.2⟩, by omega, rfl⟩

/-- Witness for C7 at the samples 1/2 and 0. -/
theorem C7_explosion_batch_sizes_witness :
    (0 : ℚ) ≤ 1 / 2 ∧ (1 : ℚ) / 2 < 1 ∧ (0 : ℚ) ≤ 0 ∧ (0 : ℚ) < 1 ∧
      ((20 ≤ explosionBatchSize false 0 ∧ explosionBatchSize false 0 ≤ 45) ∧
       (40 ≤ explosionBatchSize true (1 / 2) ∧ explosionBatchSize true (1 / 2) ≤ 65) ∧
       explosionBatchSize false 0 < explosionBatchSize true (1 / 2) ∧
       particleWait true (1 / 2) = 0) :=
  ⟨by norm_num, by norm_num, le_rfl, by norm_num,
    C7_explosion_batch_sizes (1 / 2) 0 (by norm_num) (by norm_num) le_rfl (by norm_num)⟩

/-- C8: the difficulty parameters are functions of the level alone; the spawn
interval strictly decreases with the level until it reaches the fixed floor
300 (from level 14 on it equals the floor), and the bomb probability is zero
below the grace threshold of level 3, then grows by exactly 0.015 per level
while below the hard cap 0.35, never exceeds the cap, and never decreases. -/
theorem C8_difficulty_deterministic (L : ℤ) :
    300 ≤ spawnRate L ∧
    (300 < spawnRate L → spawnRate (L + 1) < spawnRate L) ∧
    (14 ≤ L → spawnRate L = 300) ∧
    (L < 3 → bombThreshold L = 0) ∧
    bombThreshold L ≤ 35 / 100 ∧
    (3 ≤ L → bombThreshold L < 35 / 100 →
      bombThreshold (L + 1) = bombThreshold L + 15 / 1000) ∧
    bombThreshold L ≤ bombThreshold (L + 1) := by
  refine ⟨le_max_left 300 _, fun h => ?_, fun h => ?_, fun h => ?_, ?_,
    fun h3 hcap => ?_, ?_⟩
  · simp only [spawnRate, INITIAL_SPAWN_INTERVAL, max_def] at h ⊢
    split_ifs at h ⊢ <;> omega
  · simp only [spawnRate, INITIAL_SPAWN_INTERVAL, max_def]
    split_ifs <;> omega
  · unfold bombThreshold
    rw [if_neg (by omega)]
  · unfold bombThreshold
    split
    · exact min_le_left _ _
    · norm_num
  · have hb : 5 / 100 + ((L : ℚ) - 3) * (15 / 1000) < 35 / 100 := by
      unfold bombThreshold at hcap
      rw [if_pos h3] at hcap
      rcases min_lt_iff.mp hcap with hx | hx
      · linarith
      · exact hx
    have hq : (L : ℚ) < 23 := by linarith
    have hz : L < 23 := by exact_mod_cast hq
    have hcst : (L : ℚ) ≤ 22 := by exact_mod_cast (by omega : L ≤ 22)
    unfold bombThreshold
    rw [if_pos h3, if_pos (by omega : (3 : ℤ) ≤ L + 1)]
    rw [min_eq_right (le_of_lt hb), min_eq_right (by push_cast; linarith)]
    push_cast
    ring
  · by_cases h3 : 3 ≤ L
    · unfold bombThreshold
      rw [if_pos h3, if_pos (by omega : (3 : ℤ) ≤ L + 1)]
      apply min_le_min le_rfl
      push_cast
      linarith
    · unfold bombThreshold
      rw [if_neg h3]
      split
      · next h4 =>
        have hc : (2 : ℚ) ≤ (L : ℚ) := by exact_mod_cast (by omega : (2 : ℤ) ≤ L)
        refine le_min (by norm_num) ?_
        push_cast
        linarith
      · exact le_rfl

/-- Witness for C8 at levels 5, 20 and 2. -/
theorem C8_difficulty_deterministic_witness :
    300 < spawnRate 5 ∧ (3 : ℤ) ≤ 5 ∧ bombThreshold 5 < 35 / 100 ∧
      (14 : ℤ) ≤ 20 ∧ (2 : ℤ) < 3 ∧
      (spawnRate 6 < spawnRate 5 ∧ spawnRate 20 = 300 ∧ bombThreshold 2 = 0 ∧
        bombThreshold 6 = bombThreshold 5 + 15 / 1000) :=
  ⟨by decide, by decide, by norm_num [bombThreshold], by decide, by decide,
    (C8_difficulty_deterministic 5).2.1 (by decide),
    (C8_difficulty_deterministic 20).2.2.1 (by decide),
    (C8_difficulty_deterministic 2).2.2.2.1 (by decide),
    (C8_difficulty_deterministic 5).2.2.2.2.2.1 (by decide) (by norm_num [bombThreshold])⟩

/-- C9 counterexample: in the `onResults` variant, the guava at (5, 0) with
incoming velocity (3, -4) is hit by the segment (0,0)->(10,0) and the hit
fires, yet the post-hit velocity equals the pre-hit velocity: variant 1
applies no impulse at all, so the claim as stated fails there. -/
theorem C9_counterexample :
    (v1FruitStep ⟨0, 0⟩ ⟨10, 0⟩ cexFruitC9).2 = true ∧
      ((v1FruitStep ⟨0, 0⟩ ⟨10, 0⟩ cexFruitC9).1).vx = cexFruitC9.vx ∧
      ((v1FruitStep ⟨0, 0⟩ ⟨10, 0⟩ cexFruitC9).1).vy = cexFruitC9.vy := by
  refine ⟨?_, ?_, ?_⟩ <;>
    norm_num [v1FruitStep, v1SliceFruit, onResultsHit, cexFruitC9]

/-- C9 (amended): in the `checkCollisions` variant a hit overwrites the
target's velocity with the impulse `2 * (dx, dy) / len` derived from the
trail segment's direction, alongside setting the sliced flag and the slice
angle, so the post-hit velocity differs from any pre-hit velocity other than
the impulse itself; in the `onResults` variant a hit leaves the velocity
unchanged. -/
theorem C9_hit_impulse (prev tip : Point) (len : ℚ) (f : Fruit)
    (_hlen : len ^ 2 = segLenSq prev tip) (_hpos : 0 < len)
    (hvel : (f.vx, f.vy) ≠ (2 * (tip.x - prev.x) / len, 2 * (tip.y - prev.y) / len)) :
    ((v2SliceFruit prev tip len f).vx = 2 * (tip.x - prev.x) / len ∧
      (v2SliceFruit prev tip len f).vy = 2 * (tip.y - prev.y) / len ∧
      ((v2SliceFruit prev tip len f).vx, (v2SliceFruit prev tip len f).vy) ≠ (f.vx, f.vy) ∧
      (v2SliceFruit prev tip len f).isSliced = true ∧
      (v2SliceFruit prev tip len f).sliceAngle = some (tip.x - prev.x, tip.y - prev.y)) ∧
    (∀ (p1 p2 : Point) (g : Fruit),
      (v1SliceFruit p1 p2 g).vx = g.vx ∧ (v1SliceFruit p1 p2 g).vy = g.vy) := by
  refine ⟨⟨rfl, rfl, fun hc => hvel hc.symm, rfl, rfl⟩, fun p1 p2 g => ⟨rfl, rfl⟩⟩

/-- Witness for C9 over the segment (0,0)->(3,4) of length 5. -/
theorem C9_hit_impulse_witness :
    (5 : ℚ) ^ 2 = segLenSq ⟨0, 0⟩ ⟨3, 4⟩ ∧ (0 : ℚ) < 5 ∧
      (cexFruitC9.vx, cexFruitC9.vy) ≠
        (2 * ((⟨3, 4⟩ : Point).x - (⟨0, 0⟩ : Point).x) / 5,
          2 * ((⟨3, 4⟩ : Point).y - (⟨0, 0⟩ : Point).y) / 5) ∧
      ((v2SliceFruit ⟨0, 0⟩ ⟨3, 4⟩ 5 cexFruitC9).vx,
          (v2SliceFruit ⟨0, 0⟩ ⟨3, 4⟩ 5 cexFruitC9).vy) ≠
        (cexFruitC9.vx, cexFruitC9.vy) :=
  ⟨by norm_num [segLenSq], by norm_num,
    by norm_num [cexFruitC9, Prod.ext_iff],
    ((C9_hit_impulse ⟨0, 0⟩ ⟨3, 4⟩ 5 cexFruitC9 (by norm_num [segLenSq]) (by norm_num)
        (by norm_num [cexFruitC9, Prod.ext_iff])).1).2.2.1⟩

/-- C10: in the `onResults` variant (the primary variant, the one whose score
update carries the floor), slicing a bomb both decrements lives by exactly
one and adds the bomb's -100 point value to the score; every score update is
of the form `max 0 (score + points)`, so the score stays nonnegative across
every frame of a session that starts at a nonnegative score. -/
theorem C10_bomb_double_penalty (s : Stats) (hs : 0 ≤ s.score) :
    (v1HitStats FruitType.bomb s).lives = s.lives - 1 ∧
    fruitPoints FruitType.bomb = -100 ∧
    (v1HitStats FruitType.bomb s).score = max 0 (s.score + (-100)) ∧
    (∀ ty : FruitType, (v1HitStats ty s).score = max 0 (s.score + fruitPoints ty)) ∧
    (∀ ty : FruitType, 0 ≤ (v1HitStats ty s).score) ∧
    (∀ (p1 p2 : Point) (fs : List Fruit), 0 ≤ ((v1Frame p1 p2 fs s).2).score) :=
  ⟨rfl, rfl, v1HitStats_score_eq FruitType.bomb s,
    fun ty => v1HitStats_score_eq ty s,
    fun ty => v1HitStats_score_nonneg ty s,
    fun p1 p2 fs => (v1Frame_stats p1 p2 fs s).2.2 hs⟩

/-- Witness for C10 on a fresh-score session over one bomb. -/
theorem C10_bomb_double_penalty_witness :
    (0 : ℤ) ≤ cexStatsC3.score ∧
      ((v1HitStats FruitType.bomb cexStatsC3).lives = cexStatsC3.lives - 1 ∧
        (v1HitStats FruitType.bomb cexStatsC3).score = max 0 (cexStatsC3.score + (-100)) ∧
        0 ≤ ((v1Frame ⟨0, 0⟩ ⟨10, 0⟩ [cexBombA] cexStatsC3).2).score) :=
  ⟨le_rfl,
    (C10_bomb_double_penalty cexStatsC3 le_rfl).1,
    (C10_bomb_double_penalty cexStatsC3 le_rfl).2.2.1,
    (C10_bomb_double_penalty cexStatsC3 le_rfl).2.2.2.2.2 ⟨0, 0⟩ ⟨10, 0⟩ [cexBombA]⟩
